import Mathlib

/-!
Verification development for the easymcp shim relay (`src/index.ts`).

The development shallowly embeds the per-line behaviour of the
`rl.on("line")` handler installed by `startMcpShim`: parsing outcome,
local handling of `initialize` and `notifications/*`, the dedicated
`tools/list` block, the general forwarding path, and the error
classification performed in the surrounding `catch` blocks.

Modelling conventions:
* JSON values are the inductive `Json`; the JavaScript value `undefined`
  is represented by `Option.none` at access sites and merged into
  `Json.null` where the two are indistinguishable for the code paths
  involved (truthiness tests, `?.` chains, `||` chains).
* `JSON.parse` is abstracted as an `Except String Json` input: `.error e`
  means the parse threw an exception whose message is `e`.
* The single outbound `api.post` per line is abstracted by a
  `RemoteResult` parameter describing how that promise settles.
* Exceptions thrown by the handler body (the `McpError` values the code
  constructs, and the `TypeError`s JavaScript raises when a non-string
  receives `startsWith` or `toLowerCase`) are modelled by `Exn` and
  propagated to the enclosing `catch` exactly as in the source.
* Observable effects of one line are collected in `LineOut`: the stdout
  lines written (as `Json` values), the stderr debug log lines, the
  number of HTTP posts performed, and an instrumentation flag recording
  whether one of the three `message.method === "tools/list"` guarded
  `throw new McpError` statements in the general classifier fired.
-/

/-- JSON values, as produced by a successful `JSON.parse`. -/
inductive Json where
  | null
  | bool (b : Bool)
  | num (n : Int)
  | str (s : String)
  | arr (elems : List Json)
  | obj (fields : List (String × Json))

/-- Field lookup in a parsed JSON object (objects from `JSON.parse` have
no duplicate keys, so first match is the field). -/
def lookupField : List (String × Json) → String → Option Json
  | [], _ => none
  | (k, v) :: rest, key => if k == key then some v else lookupField rest key

/-- JavaScript property access `x.key` on a non-nullish value: objects
yield the field or `undefined` (`none`); other values have none of the
properties the shim reads, so access yields `undefined`. -/
def jsGet : Json → String → Option Json
  | .obj fields, key => lookupField fields key
  | _, _ => none

/-- JavaScript optional chaining `x?.key`: `undefined`/`null` short
circuit to `undefined`, otherwise property access. -/
def optChain (v : Option Json) (key : String) : Option Json :=
  match v with
  | none => none
  | some j => jsGet j key

/-- JavaScript truthiness of a parsed JSON value. -/
def jsTruthy : Json → Bool
  | .null => false
  | .bool b => b
  | .num n => n != 0
  | .str s => s != ""
  | .arr _ => true
  | .obj _ => true

/-- Truthiness of a possibly-`undefined` value. -/
def optTruthy : Option Json → Bool
  | none => false
  | some j => jsTruthy j

/-- JavaScript `a || b` over possibly-`undefined` values. -/
def jsOrElse (a b : Option Json) : Option Json :=
  match a with
  | some v => if jsTruthy v then some v else b
  | none => b

mutual

/-- JavaScript string coercion as used inside template literals; array
elements that are nullish render as the empty string, as in `Array
.prototype.toString`. -/
def jsToStr : Json → String
  | .null => "null"
  | .bool b => if b then "true" else "false"
  | .num n => toString n
  | .str s => s
  | .arr xs => String.intercalate "," (jsToStrElems xs)
  | .obj _ => "[object Object]"

def jsToStrElems : List Json → List String
  | [] => []
  | .null :: rest => "" :: jsToStrElems rest
  | x :: rest => jsToStr x :: jsToStrElems rest

end

/-- Template-literal rendering of a possibly-`undefined` value. -/
def jsTemplateOpt : Option Json → String
  | none => "undefined"
  | some j => jsToStr j

/-- Template rendering of `v || fallbackText` where the fallback is a
string literal, as in `data?.message || "Internal server error"`. -/
def jsTemplateOr (v : Option Json) (fallback : String) : String :=
  match v with
  | some j => if jsTruthy j then jsToStr j else fallback
  | none => fallback

/-- Test whether the second character list is an initial segment of the
first. -/
def charsStartWith : List Char → List Char → Bool
  | _, [] => true
  | [], _ :: _ => false
  | a :: as, b :: bs => a == b && charsStartWith as bs

/-- Test whether the second character list occurs inside the first. -/
def charsContain : List Char → List Char → Bool
  | [], pat => pat.isEmpty
  | c :: rest, pat => charsStartWith (c :: rest) pat || charsContain rest pat

/-- JavaScript `String.prototype.includes`. -/
def jsIncludes (s pat : String) : Bool :=
  charsContain s.data pat.data

/-- JavaScript `String.prototype.startsWith`. -/
def jsStartsWith (s pat : String) : Bool :=
  charsStartWith s.data pat.data

/-- ASCII lowering of a string; the strings the classifier matches on
("expired", "limit", "quota") are ASCII, where this agrees with the
JavaScript `toLowerCase`. -/
def lowerString (s : String) : String :=
  String.mk (s.data.map Char.toLower)

/-- Strict equality test `v === n` between a possibly-`undefined` value
and a number literal. -/
def isNumEq (v : Option Json) (n : Int) : Bool :=
  match v with
  | some (.num m) => m == n
  | _ => false

/-- Strict equality test `message.method === "tools/list"`. -/
def isToolsListMethod : Option Json → Bool
  | some (.str s) => s == "tools/list"
  | _ => false

/-- The `ErrorType` enum of `src/index.ts`. -/
inductive ErrorType where
  | CONNECTION
  | AUTH
  | AUTH_EXPIRED
  | AUTH_INVALID
  | AUTH_LIMITS
  | SERVER
  | UNKNOWN
deriving DecidableEq

/-- Exceptions the handler body can raise: the `McpError` class of
`src/index.ts`, and the `TypeError` JavaScript raises when a property
chain is called on a value that does not support it. Both are
`instanceof Error`, so `error.message` is the carried string. -/
inductive Exn where
  | mcpError (message : String) (type : ErrorType)
  | typeError (message : String)

/-- Message carried by an exception (`error.message`). -/
def Exn.message : Exn → String
  | .mcpError m _ => m
  | .typeError m => m

/-- An HTTP response attached to an axios error
(`error.response.status` / `error.response.data`). `Json.null` stands
for an absent body. -/
structure HttpResponse where
  status : Nat
  data : Json

/-- The information the handler reads off a rejected axios call:
`error.response` (absent on pure transport failures such as timeouts)
and `error.message`. -/
structure AxiosErrorInfo where
  response : Option HttpResponse
  message : String

/-- How the single `api.post("/json-rpc", message)` of one line settles:
fulfilled with a body, rejected with an axios error, or rejected with a
non-axios exception. -/
inductive RemoteResult where
  | ok (data : Json)
  | axiosErr (e : AxiosErrorInfo)
  | otherErr (e : Exn)

/-- The `env` option of `startMcpShim`. -/
inductive Env where
  | dev
  | prod
deriving DecidableEq

/-- The `ENV_CONFIG` table of `src/index.ts`. -/
def envConfig : Env → String
  | .dev => "http://localhost:3000"
  | .prod => "https://api.easymcp.net"

/-- The `McpShimOptions` interface of `src/index.ts`. -/
structure McpShimOptions where
  token : String
  debug : Bool
  env : Env

/-- Observable effects of handling one input line: stdout lines written
(in order), debug log lines written to stderr (in order), number of
outbound HTTP posts, and whether one of the guarded
`message.method === "tools/list"` throws in the general classifier
fired. -/
structure LineOut where
  outputs : List Json
  logs : List String
  posts : Nat
  guardedThrew : Bool

/-- The `log` helper of `startMcpShim`: lines reach stderr only when
debug is enabled. -/
def dbgLogs (debug : Bool) (xs : List String) : List String :=
  if debug then xs else []

/-- Build the serialized fields of a response object: `JSON.stringify`
drops an `id` field holding `undefined` but keeps `null`. -/
def withOptId (id : Option Json) (rest : List (String × Json)) : List (String × Json) :=
  ("jsonrpc", Json.str "2.0") ::
    ((match id with
      | some v => [("id", v)]
      | none => []) ++ rest)

/-- The object written by `sendErrorResponse` (line 328). -/
def errorResponse (id : Option Json) (code : Int) (msg : String) : Json :=
  Json.obj (withOptId id
    [("error", Json.obj [("code", Json.num code), ("message", Json.str msg)])])

/-- The `emptyToolsResponse` object of the `tools/list` block. -/
def emptyToolsResponse (id : Option Json) : Json :=
  Json.obj (withOptId id [("result", Json.obj [("tools", Json.arr [])])])

/-- The fixed `result` of the local `initialize` answer (lines 100-109). -/
def initializeResult : Json :=
  Json.obj
    [("serverInfo", Json.obj
        [("name", Json.str "easymcp-shim"), ("version", Json.str "1.0.0")]),
     ("capabilities", Json.obj
        [("tools", Json.obj [("listChanged", Json.bool false)])]),
     ("protocolVersion", Json.str "2024-11-05")]

/-- The full local `initialize` response (lines 97-110). -/
def initializeResponse (id : Option Json) : Json :=
  Json.obj (withOptId id [("result", initializeResult)])

/-- The error-body message extraction
`errorData?.error?.message || errorData?.message || "Invalid token"`
(lines 145 and 234). -/
def errMsgOf (errorData : Json) : Json :=
  (jsOrElse (optChain (optChain (some errorData) "error") "message")
    (jsOrElse (optChain (some errorData) "message")
      (some (Json.str "Invalid token")))).getD Json.null

/-- Message text of the `McpError` thrown for an expired token, also the
`errorMessage` of the expired branch (lines 150 and 239). -/
def expiredErrorText : String :=
  "Your authentication token has expired. Please renew your subscription."

/-- Message text of the `McpError` thrown for exhausted usage limits,
also the `errorMessage` of the limits branch (lines 157 and 254). -/
def limitsErrorText : String :=
  "You have reached your usage limits. Please upgrade your plan."

/-- Message text of the `McpError` thrown for an invalid token
(lines 164 and 276). -/
def invalidTokenText : String :=
  "Your authentication token is invalid. Please check or renew your token."

/-- Message text of the `McpError` thrown on a connection problem inside
the `tools/list` block (line 195). -/
def connectErrorText : String :=
  "Cannot connect to the EasyMCP server. Please check your network and server status."

/-- Text of the `TypeError` JavaScript raises at
`message.method?.startsWith("notifications/")` when `method` holds a
defined non-string value (line 90). -/
def startsWithTypeErrText : String :=
  "message.method?.startsWith is not a function"

/-- Text of the `TypeError` JavaScript raises at line 87 when the parsed
line is the JSON literal null and `message.method` is read. -/
def nullAccessText : String :=
  "Cannot read properties of null (reading method)"

/-- Text of the `TypeError` JavaScript raises when
`errorMsg.toLowerCase()` is called on a non-string body message
(lines 148 and 237). -/
def toLowerTypeErrText : String :=
  "errorMsg.toLowerCase is not a function"

/-- Outcome of the `errorMsg.toLowerCase().includes(...)` cascade shared
by lines 148-167 and 237-279: which auth sub-branch fires, carrying the
extracted message string, or the `TypeError` raised on a non-string. -/
inductive AuthClass where
  | expired (s : String)
  | limits (s : String)
  | invalid (s : String)

/-- The auth sub-branch selection on the extracted body message. -/
def classifyAuthMsg (errorMsg : Json) : Except Exn AuthClass :=
  match errorMsg with
  | .str s =>
      if jsIncludes (lowerString s) "expired" then .ok (.expired s)
      else if jsIncludes (lowerString s) "limit" || jsIncludes (lowerString s) "quota" then
        .ok (.limits s)
      else .ok (.invalid s)
  | _ => .error (.typeError toLowerTypeErrText)

/-- Result of the error classification performed by the `catch` at
line 218: either an error response is sent (`respond`, carrying the
JSON-RPC code, the message, the debug log lines of the branch, and the
`ErrorType` the branch would attach to its guarded `McpError`), or an
exception propagates out of the `catch` (`thrown`; `guarded` records
whether it was one of the three `message.method === "tools/list"`
guarded `McpError` throws). -/
inductive ClassifyOut where
  | respond (code : Int) (message : String) (logs : List String)
      (authKind : Option ErrorType)
  | thrown (e : Exn) (logs : List String) (guarded : Bool)

/-- JSON-RPC code of a `respond` outcome. -/
def ClassifyOut.codeOf : ClassifyOut → Option Int
  | .respond c _ _ _ => some c
  | .thrown _ _ _ => none

/-- The log lines of the connection-problem banner inside the
`tools/list` block (lines 184-191). -/
def connectionProblemLogs (serverUrl : String) : List String :=
  ["\n⚠️ Connection Problem Detected ⚠️",
   "-------------------------------",
   "EasyMCP cannot connect to the server. Claude will function without tools.",
   "\nPossible solutions:",
   "1. Check your internet connection",
   "2. Ensure the server is running at " ++ serverUrl,
   "3. Check any firewall settings",
   "\nFor help, visit: https://console.easymcp.net/status\n"]

/-- The axios branch of the error classification in the `catch` at
line 218 (lines 223-309), mirroring the if/else chain in source order:
no response, then 401/403, then 429, then status at least 500, then 404
or a payload carrying JSON-RPC code -32601, then any other status. -/
def classifyAxios (debug : Bool) (method : Option Json) (e : AxiosErrorInfo) :
    ClassifyOut :=
  match e.response with
  | none =>
      .respond (-32001)
        "Server unreachable. Please check your network connection and server status."
        (dbgLogs debug
          ["Network error: " ++ e.message,
           "⚠️ Connection issue detected. Please check your internet connection and server status.",
           "   If this persists, check https://console.easymcp.net/status for service updates."])
        none
  | some r =>
      if r.status == 401 || r.status == 403 then
        match classifyAuthMsg (errMsgOf r.data) with
        | .error ex => .thrown ex [] false
        | .ok (.expired s) =>
            let lgs := dbgLogs debug
              ["⚠️ Token expired: " ++ s,
               "   Please visit https://console.easymcp.net to renew your subscription."]
            if isToolsListMethod method then
              .thrown (.mcpError expiredErrorText .AUTH_EXPIRED) lgs true
            else
              .respond (-32003) expiredErrorText lgs (some .AUTH_EXPIRED)
        | .ok (.limits s) =>
            let lgs := dbgLogs debug
              ["⚠️ Usage limits exceeded: " ++ s,
               "   Please visit https://console.easymcp.net to upgrade your plan."]
            if isToolsListMethod method then
              .thrown (.mcpError limitsErrorText .AUTH_LIMITS) lgs true
            else
              .respond (-32004) limitsErrorText lgs (some .AUTH_LIMITS)
        | .ok (.invalid s) =>
            let lgs := dbgLogs debug
              ["⚠️ Authentication failed: " ++ s,
               "   Please check your token and visit https://console.easymcp.net if issues persist."]
            if isToolsListMethod method then
              .thrown (.mcpError invalidTokenText .AUTH_INVALID) lgs true
            else
              .respond (-32003) ("Authentication failed: " ++ s) lgs
                (some .AUTH_INVALID)
      else if r.status == 429 then
        .respond (-32029) "Rate limit exceeded. Please try again later."
          (dbgLogs debug
            ["Rate limit error: " ++ toString r.status,
             "⚠️ Rate limit exceeded. You have reached your usage limits.",
             "   Consider upgrading your plan at https://console.easymcp.net for increased limits."])
          none
      else if r.status ≥ 500 then
        .respond (-32000)
          ("Server error: " ++
            jsTemplateOr (optChain (some r.data) "message") "Internal server error")
          (dbgLogs debug
            ["Server error: " ++ toString r.status,
             "⚠️ EasyMCP server encountered an internal error.",
             "   This is likely temporary. Please try again later or check status at https://console.easymcp.net/status"])
          none
      else if r.status == 404 ||
          isNumEq (optChain (optChain (some r.data) "error") "code") (-32601) then
        .respond (-32601) ("Method not found: " ++ jsTemplateOpt method) [] none
      else
        .respond (-32602)
          ("Request failed: " ++
            jsTemplateOr (optChain (some r.data) "message") e.message)
          (dbgLogs debug
            ["HTTP error: " ++ toString r.status,
             "⚠️ Request to server failed with status " ++ toString r.status])
          none

/-- An exception reaching the `catch` at line 218: a rejected axios
call, or a non-axios error (a thrown `McpError` or `TypeError`). -/
inductive CaughtErr where
  | axiosE (e : AxiosErrorInfo)
  | exnE (e : Exn)

/-- The whole `catch` at line 218: axios errors go through the
classifier chain; anything else takes the non-axios branch
(lines 310-315) with code -32603 and the exception text. -/
def catch218 (debug : Bool) (method : Option Json) (err : CaughtErr) :
    ClassifyOut :=
  match err with
  | .axiosE e => classifyAxios debug method e
  | .exnE ex =>
      .respond (-32603) ex.message
        (dbgLogs debug ["Request error: " ++ ex.message]) none

/-- Run the `catch` at line 218 on an error, given the outputs and logs
already produced before it ran. A `respond` outcome appends the
`sendErrorResponse` line (line 317); a `thrown` outcome propagates to
the outermost `catch` at line 319, which appends the id-null -32700
response (line 323). -/
def applyCatch218 (debug : Bool) (method msgId : Option Json)
    (pre : List Json) (preLogs : List String) (posts : Nat)
    (err : CaughtErr) : LineOut :=
  match catch218 debug method err with
  | .respond code msg lgs _kind =>
      ⟨pre ++ [errorResponse msgId code msg], preLogs ++ lgs, posts, false⟩
  | .thrown ex lgs g =>
      ⟨pre ++ [errorResponse (some Json.null) (-32700)
          ("Parse error: " ++ ex.message)],
        preLogs ++ lgs ++ dbgLogs debug ["Parse error: " ++ ex.message],
        posts, g⟩

/-- Effects of the `catch` inside the `tools/list` block
(lines 141-199): stdout lines written, log lines, and the exception it
rethrows, if any. -/
structure BlockOut where
  outputs : List Json
  logs : List String
  thrown : Option Exn

/-- The `catch` inside the `tools/list` block for a rejected axios call
(lines 141-199): 401/403 throw a typed `McpError` without writing
anything; every other axios failure writes the empty-tools response,
and the no-response case then logs the connection banner and throws a
`CONNECTION` `McpError` (line 194). -/
def toolsListCatch (debug : Bool) (serverUrl : String) (msgId : Option Json)
    (e : AxiosErrorInfo) : BlockOut :=
  match e.response with
  | some r =>
      if r.status == 401 || r.status == 403 then
        match classifyAuthMsg (errMsgOf r.data) with
        | .error ex => ⟨[], [], some ex⟩
        | .ok (.expired _) =>
            ⟨[], [], some (.mcpError expiredErrorText .AUTH_EXPIRED)⟩
        | .ok (.limits _) =>
            ⟨[], [], some (.mcpError limitsErrorText .AUTH_LIMITS)⟩
        | .ok (.invalid _) =>
            ⟨[], [], some (.mcpError invalidTokenText .AUTH_INVALID)⟩
      else
        ⟨[emptyToolsResponse msgId],
          dbgLogs debug ["Returning empty tools list due to server error"],
          none⟩
  | none =>
      ⟨[emptyToolsResponse msgId],
        dbgLogs debug
          ("Returning empty tools list due to server error" ::
            connectionProblemLogs serverUrl),
        some (.mcpError connectErrorText .CONNECTION)⟩

/-- The dedicated `tools/list` block (lines 121-201), including the
propagation of its rethrown exceptions into the `catch` at line 218. -/
def toolsListRequest (debug : Bool) (serverUrl : String)
    (method msgId : Option Json) (recvLogs : List String)
    (remote : RemoteResult) : LineOut :=
  let fwdLogs := recvLogs ++ dbgLogs debug ["Forwarding: " ++ jsTemplateOpt method]
  match remote with
  | .ok data =>
      if jsTruthy data then
        ⟨[data],
          fwdLogs ++ dbgLogs debug ["Response sent for: " ++ jsTemplateOpt method],
          1, false⟩
      else
        ⟨[emptyToolsResponse msgId],
          fwdLogs ++ dbgLogs debug ["Returning empty tools list due to server unreachable"],
          1, false⟩
  | .axiosErr e =>
      let blk := toolsListCatch debug serverUrl msgId e
      match blk.thrown with
      | none => ⟨blk.outputs, fwdLogs ++ blk.logs, 1, false⟩
      | some ex =>
          applyCatch218 debug method msgId blk.outputs (fwdLogs ++ blk.logs) 1
            (.exnE ex)
  | .otherErr _ =>
      ⟨[emptyToolsResponse msgId],
        fwdLogs ++ dbgLogs debug ["Returning empty tools list due to server error"],
        1, false⟩

/-- The general forwarding path for every other method
(lines 203-317). -/
def forwardRequest (debug : Bool) (method msgId : Option Json)
    (recvLogs : List String) (remote : RemoteResult) : LineOut :=
  let fwdLogs := recvLogs ++ dbgLogs debug ["Forwarding: " ++ jsTemplateOpt method]
  match remote with
  | .ok data =>
      if jsTruthy data then
        ⟨[data],
          fwdLogs ++ dbgLogs debug ["Response sent for: " ++ jsTemplateOpt method],
          1, false⟩
      else
        ⟨[errorResponse msgId (-32603) "Server returned empty response"],
          fwdLogs ++ dbgLogs debug ["Empty response from server"],
          1, false⟩
  | .axiosErr e => applyCatch218 debug method msgId [] fwdLogs 1 (.axiosE e)
  | .otherErr ex => applyCatch218 debug method msgId [] fwdLogs 1 (.exnE ex)

/-- The `Received:` log text of line 87. -/
def recvName (method : Option Json) : String :=
  match method with
  | some v => if jsTruthy v then jsToStr v else "unknown method"
  | none => "unknown method"

/-- Handling of a successfully parsed non-null message: the
notification check (line 90), the local `initialize` answer (line 96),
the `tools/list` block (line 121), and the general forwarding path.
A defined non-string `method` raises the `startsWith` `TypeError`,
which falls through to the outermost `catch` at line 319. -/
def dispatchMessage (opts : McpShimOptions) (message : Json)
    (remote : RemoteResult) : LineOut :=
  let debug := opts.debug
  let method := jsGet message "method"
  let msgId := jsGet message "id"
  let recvLogs := dbgLogs debug ["Received: " ++ recvName method]
  match method with
  | some (Json.str s) =>
      if jsStartsWith s "notifications/" then
        ⟨[], recvLogs ++ dbgLogs debug ["Received notification: " ++ s], 0, false⟩
      else if s == "initialize" then
        ⟨[initializeResponse msgId],
          recvLogs ++ dbgLogs debug ["Initialization complete"], 0, false⟩
      else if s == "tools/list" then
        toolsListRequest debug (envConfig opts.env) (some (Json.str s)) msgId
          recvLogs remote
      else
        forwardRequest debug (some (Json.str s)) msgId recvLogs remote
  | none => forwardRequest debug none msgId recvLogs remote
  | some Json.null => forwardRequest debug (some Json.null) msgId recvLogs remote
  | some _ =>
      ⟨[errorResponse (some Json.null) (-32700)
          ("Parse error: " ++ startsWithTypeErrText)],
        recvLogs ++ dbgLogs debug ["Parse error: " ++ startsWithTypeErrText],
        0, false⟩

/-- The full `rl.on("line")` handler body for one input line
(lines 84-325), as a function of the `JSON.parse` outcome and of how
the single outbound post of that line settles. -/
def handleLine (opts : McpShimOptions) (parsed : Except String Json)
    (remote : RemoteResult) : LineOut :=
  match parsed with
  | .error e =>
      ⟨[errorResponse (some Json.null) (-32700) ("Parse error: " ++ e)],
        dbgLogs opts.debug ["Parse error: " ++ e], 0, false⟩
  | .ok Json.null =>
      ⟨[errorResponse (some Json.null) (-32700) ("Parse error: " ++ nullAccessText)],
        dbgLogs opts.debug ["Parse error: " ++ nullAccessText], 0, false⟩
  | .ok message => dispatchMessage opts message remote

/-- Message of the `McpError` the `tools/list` auth catch
(lines 148-167) throws for a string body message `t`: the expired,
limits and invalid branches in source order. -/
def authMcpText (t : String) : String :=
  if jsIncludes (lowerString t) "expired" then expiredErrorText
  else if jsIncludes (lowerString t) "limit" || jsIncludes (lowerString t) "quota" then
    limitsErrorText
  else invalidTokenText

/-- A message whose `method` field is defined is an object. -/
theorem jsGet_some_obj {m : Json} {k : String} {v : Json}
    (h : jsGet m k = some v) : ∃ fields, m = Json.obj fields := by
  cases m <;> simp [jsGet] at h ⊢

/-- The general classifier reaches a guarded throw only when the method
is the string tools/list. -/
theorem classifyAxios_guarded {debug : Bool} {method : Option Json}
    {e : AxiosErrorInfo} {ex : Exn} {lgs : List String}
    (h : classifyAxios debug method e = ClassifyOut.thrown ex lgs true) :
    isToolsListMethod method = true := by
  unfold classifyAxios at h
  rcases e with ⟨resp, msg⟩
  rcases resp with _ | r
  · simp at h
  · simp only at h
    split at h
    · rcases hc : classifyAuthMsg (errMsgOf r.data) with ex2 | ac
      · rw [hc] at h; simp at h
      · rw [hc] at h
        rcases ac with s | s | s <;> simp only at h <;>
          split at h <;> simp_all
    · split at h
      · simp at h
      · split at h
        · simp at h
        · split at h <;> simp at h


/-- Applying the general catch to a non-axios exception never takes a
guarded branch. -/
theorem applyCatch218_exn_not_guarded (debug : Bool) (method msgId : Option Json)
    (pre : List Json) (preLogs : List String) (posts : Nat) (ex : Exn) :
    (applyCatch218 debug method msgId pre preLogs posts (.exnE ex)).guardedThrew = false := by
  simp [applyCatch218, catch218]

/-- Applying the general catch always appends one stdout line. -/
theorem applyCatch218_outputs_ne_nil (debug : Bool) (method msgId : Option Json)
    (pre : List Json) (preLogs : List String) (posts : Nat) (err : CaughtErr) :
    (applyCatch218 debug method msgId pre preLogs posts err).outputs ≠ [] := by
  rcases hc : catch218 debug method err with ⟨c, m2, lgs, k⟩ | ⟨ex2, lgs, g⟩ <;>
    simp [applyCatch218, hc]

/-- Applying the general catch with a method other than the string
tools/list never takes a guarded branch. -/
theorem applyCatch218_not_guarded (debug : Bool) (method msgId : Option Json)
    (pre : List Json) (preLogs : List String) (posts : Nat) (err : CaughtErr)
    (hm : isToolsListMethod method = false) :
    (applyCatch218 debug method msgId pre preLogs posts err).guardedThrew = false := by
  rcases hc : catch218 debug method err with ⟨c, m2, lgs, k⟩ | ⟨ex2, lgs, g⟩
  · simp [applyCatch218, hc]
  · simp only [applyCatch218, hc]
    cases g
    · rfl
    · rcases err with e | ex
      · exact absurd (classifyAxios_guarded (by simpa [catch218] using hc))
          (by simp [hm])
      · simp [catch218] at hc

/-- The general forwarding path always writes at least one line. -/
theorem forwardRequest_outputs_ne_nil (debug : Bool) (method msgId : Option Json)
    (recvLogs : List String) (remote : RemoteResult) :
    (forwardRequest debug method msgId recvLogs remote).outputs ≠ [] := by
  cases remote with
  | ok data => simp only [forwardRequest]; split <;> simp
  | axiosErr e => simp only [forwardRequest]; apply applyCatch218_outputs_ne_nil
  | otherErr ex => simp only [forwardRequest]; apply applyCatch218_outputs_ne_nil

/-- The general forwarding path never takes a guarded throw when the
method is not the string tools/list. -/
theorem forwardRequest_not_guarded (debug : Bool) (method msgId : Option Json)
    (recvLogs : List String) (remote : RemoteResult)
    (hm : isToolsListMethod method = false) :
    (forwardRequest debug method msgId recvLogs remote).guardedThrew = false := by
  cases remote with
  | ok data => simp only [forwardRequest]; split <;> simp
  | axiosErr e => simp only [forwardRequest]; exact applyCatch218_not_guarded _ _ _ _ _ _ _ hm
  | otherErr ex => simp only [forwardRequest]; exact applyCatch218_not_guarded _ _ _ _ _ _ _ hm

/-- The catch of the tools/list block either writes the empty-tools
line, or writes nothing and rethrows. -/
theorem toolsListCatch_cases (debug : Bool) (serverUrl : String)
    (msgId : Option Json) (e : AxiosErrorInfo) :
    (toolsListCatch debug serverUrl msgId e).outputs = [emptyToolsResponse msgId] ∨
    ((toolsListCatch debug serverUrl msgId e).outputs = [] ∧
      (toolsListCatch debug serverUrl msgId e).thrown ≠ none) := by
  rcases e with ⟨resp, msg⟩
  rcases resp with _ | r
  · left; simp [toolsListCatch]
  · simp only [toolsListCatch]
    split
    · rcases hc : classifyAuthMsg (errMsgOf r.data) with ex3 | ac
      · right; simp
      · rcases ac with s | s | s <;> (right; simp)
    · left; simp

/-- The tools/list block always writes at least one line. -/
theorem toolsListRequest_outputs_ne_nil (debug : Bool) (serverUrl : String)
    (method msgId : Option Json) (recvLogs : List String) (remote : RemoteResult) :
    (toolsListRequest debug serverUrl method msgId recvLogs remote).outputs ≠ [] := by
  cases remote with
  | ok data => simp only [toolsListRequest]; split <;> simp
  | axiosErr e =>
      simp only [toolsListRequest]
      rcases ht : (toolsListCatch debug serverUrl msgId e).thrown with _ | ex2
      · simp only [ht]
        rcases toolsListCatch_cases debug serverUrl msgId e with h | ⟨_, hth⟩
        · simp [h]
        · exact absurd ht hth
      · simp only [ht]
        apply applyCatch218_outputs_ne_nil
  | otherErr ex => simp [toolsListRequest]

/-- The tools/list block never takes a guarded throw: every exception it
rethrows reaches the general catch as a non-axios error. -/
theorem toolsListRequest_not_guarded (debug : Bool) (serverUrl : String)
    (method msgId : Option Json) (recvLogs : List String) (remote : RemoteResult) :
    (toolsListRequest debug serverUrl method msgId recvLogs remote).guardedThrew = false := by
  cases remote with
  | ok data => simp only [toolsListRequest]; split <;> simp
  | axiosErr e =>
      simp only [toolsListRequest]
      rcases ht : (toolsListCatch debug serverUrl msgId e).thrown with _ | ex2
      · simp only [ht]
      · simp only [ht]
        apply applyCatch218_exn_not_guarded
  | otherErr ex => simp [toolsListRequest]

/-- C1: the claim states that every non-notification input line yields
exactly one output line. Evaluating the code on the line
with id 1 and method tools/list whose remote call fails with no HTTP
response (a timeout) shows TWO output lines: the empty-tools success
line, then a -32603 error line produced when the thrown CONNECTION
McpError is caught by the general catch instead of the CLI. -/
theorem c1_toolsList_connection_writes_two_lines :
    (handleLine ⟨"token", false, Env.prod⟩
      (Except.ok (Json.obj [("jsonrpc", Json.str "2.0"), ("id", Json.num 1),
        ("method", Json.str "tools/list")]))
      (RemoteResult.axiosErr ⟨none, "timeout of 60000ms exceeded"⟩)).outputs =
      [emptyToolsResponse (some (Json.num 1)),
       errorResponse (some (Json.num 1)) (-32603) connectErrorText] ∧
    (handleLine ⟨"token", false, Env.prod⟩
      (Except.ok (Json.obj [("jsonrpc", Json.str "2.0"), ("id", Json.num 1),
        ("method", Json.str "tools/list")]))
      (RemoteResult.axiosErr ⟨none, "timeout of 60000ms exceeded"⟩)).outputs.length = 2 :=
  ⟨rfl, rfl⟩

/-- C2: the claim states that a Connection/transport failure on
tools/list produces only the successful empty-tools response and no
error response. Evaluating the code on a tools/list line with id 2
whose remote call fails with no HTTP response shows that after the
empty-tools line an error response (code -32603) is also written, and
its second output line indeed carries an error member. -/
theorem c2_toolsList_connection_also_emits_error :
    (handleLine ⟨"token", false, Env.dev⟩
      (Except.ok (Json.obj [("jsonrpc", Json.str "2.0"), ("id", Json.num 2),
        ("method", Json.str "tools/list")]))
      (RemoteResult.axiosErr ⟨none, "Network Error"⟩)).outputs =
      [emptyToolsResponse (some (Json.num 2)),
       errorResponse (some (Json.num 2)) (-32603) connectErrorText] ∧
    (jsGet (errorResponse (some (Json.num 2)) (-32603) connectErrorText) "error").isSome = true :=
  ⟨rfl, rfl⟩

/-- C6 counterexample: the claim states the parse-error path is the only
case in which the emitted id is null although the line carried an id.
The line with id 7 and the number 5 as method parses successfully, yet
the TypeError raised at the startsWith notification check reaches the
outermost catch, which emits an id-null -32700 response. -/
theorem c6_nonstring_method_null_id :
    jsGet (Json.obj [("jsonrpc", Json.str "2.0"), ("id", Json.num 7),
        ("method", Json.num 5)]) "id" = some (Json.num 7) ∧
    (handleLine ⟨"token", false, Env.prod⟩
      (Except.ok (Json.obj [("jsonrpc", Json.str "2.0"), ("id", Json.num 7),
        ("method", Json.num 5)]))
      (RemoteResult.ok Json.null)).outputs =
      [errorResponse (some Json.null) (-32700)
        ("Parse error: " ++ startsWithTypeErrText)] ∧
    (handleLine ⟨"token", false, Env.prod⟩
      (Except.ok (Json.obj [("jsonrpc", Json.str "2.0"), ("id", Json.num 7),
        ("method", Json.num 5)]))
      (RemoteResult.ok Json.null)).posts = 0 :=
  ⟨rfl, rfl, rfl⟩

/-- C6 amended: every input line that fails to parse as JSON yields
exactly one response, with id null, code -32700 and a message embedding
the parse failure text, with no network call; runtime errors thrown
while handling a successfully parsed line reach the same handler, so
the parse-failure path is not the only id-null case. -/
theorem c6_amended_parse_error_response (opts : McpShimOptions) (e : String)
    (remote : RemoteResult) :
    handleLine opts (Except.error e) remote =
      ⟨[errorResponse (some Json.null) (-32700) ("Parse error: " ++ e)],
        dbgLogs opts.debug ["Parse error: " ++ e], 0, false⟩ :=
  rfl

/-- C4 counterexample: the claim states a parsed line whose id is absent
produces no output line at all. The line with method ping and no id is
forwarded and the remote payload is written back, one output line. -/
theorem c4_absent_id_still_replies :
    jsGet (Json.obj [("jsonrpc", Json.str "2.0"), ("method", Json.str "ping")]) "id" = none ∧
    (handleLine ⟨"token", false, Env.prod⟩
      (Except.ok (Json.obj [("jsonrpc", Json.str "2.0"), ("method", Json.str "ping")]))
      (RemoteResult.ok (Json.obj [("jsonrpc", Json.str "2.0"), ("id", Json.null),
        ("result", Json.obj [])]))).outputs =
      [Json.obj [("jsonrpc", Json.str "2.0"), ("id", Json.null),
        ("result", Json.obj [])]] :=
  ⟨rfl, rfl⟩

/-- C3 counterexample: the claim includes HTTP 429 with a limit/quota
body among the AuthLimits failures with code -32004; the classifier in
fact tests the body only under 401/403, so a 429 with a quota body is
classified by status alone with code -32029. -/
theorem c3_429_limit_body_not_auth_limits :
    classifyAxios false (some (Json.str "tools/call"))
        ⟨some ⟨429, Json.obj [("message", Json.str "Monthly quota limit reached")]⟩,
          "Request failed with status code 429"⟩ =
      ClassifyOut.respond (-32029) "Rate limit exceeded. Please try again later." [] none ∧
    (classifyAxios false (some (Json.str "tools/call"))
        ⟨some ⟨429, Json.obj [("message", Json.str "Monthly quota limit reached")]⟩,
          "Request failed with status code 429"⟩).codeOf ≠ some (-32004) :=
  ⟨rfl, by decide⟩

/-- Dispatching any successfully parsed non-null message never reaches a
guarded throw. -/
theorem dispatchMessage_not_guarded (opts : McpShimOptions) (message : Json)
    (remote : RemoteResult) :
    (dispatchMessage opts message remote).guardedThrew = false := by
  rcases hm : jsGet message "method" with _ | v
  · simp only [dispatchMessage, hm]
    exact forwardRequest_not_guarded _ _ _ _ _ rfl
  · cases v with
    | null =>
        simp only [dispatchMessage, hm]
        exact forwardRequest_not_guarded _ _ _ _ _ rfl
    | str s =>
        simp only [dispatchMessage, hm]
        by_cases hn : jsStartsWith s "notifications/" = true
        · simp [hn]
        · simp only [hn, Bool.false_eq_true, if_false]
          by_cases hi : (s == "initialize") = true
          · simp [hi]
          · simp only [hi, Bool.false_eq_true, if_false]
            by_cases ht : (s == "tools/list") = true
            · simp only [ht, if_true]
              apply toolsListRequest_not_guarded
            · simp only [ht, Bool.false_eq_true, if_false]
              exact forwardRequest_not_guarded _ _ _ _ _
                (by simp [isToolsListMethod, ht])
    | bool b => simp [dispatchMessage, hm]
    | num n => simp [dispatchMessage, hm]
    | arr a => simp [dispatchMessage, hm]
    | obj o => simp [dispatchMessage, hm]

/-- Dispatching a parsed message whose method is not a notification
string always writes at least one line. -/
theorem dispatchMessage_outputs_ne_nil (opts : McpShimOptions) (message : Json)
    (remote : RemoteResult)
    (hns : ∀ s, jsGet message "method" = some (Json.str s) →
      jsStartsWith s "notifications/" = false) :
    (dispatchMessage opts message remote).outputs ≠ [] := by
  rcases hm : jsGet message "method" with _ | v
  · simp only [dispatchMessage, hm]
    apply forwardRequest_outputs_ne_nil
  · cases v with
    | null =>
        simp only [dispatchMessage, hm]
        apply forwardRequest_outputs_ne_nil
    | str s =>
        have hn := hns s hm
        simp only [dispatchMessage, hm, hn, Bool.false_eq_true, if_false]
        by_cases hi : (s == "initialize") = true
        · simp [hi]
        · simp only [hi, Bool.false_eq_true, if_false]
          by_cases ht : (s == "tools/list") = true
          · simp only [ht, if_true]
            apply toolsListRequest_outputs_ne_nil
          · simp only [ht, Bool.false_eq_true, if_false]
            apply forwardRequest_outputs_ne_nil
    | bool b => simp [dispatchMessage, hm]
    | num n => simp [dispatchMessage, hm]
    | arr a => simp [dispatchMessage, hm]
    | obj o => simp [dispatchMessage, hm]

/-- C10: the three guarded McpError throws in the general classifier
(the branches testing that the method equals tools/list) are dead code:
no execution of the line handler ever takes one of them, because the
dedicated tools/list block returns before the general path runs and
rethrows only non-axios errors into the general catch; the second
conjunct exhibits that the guarded branch is nevertheless takeable at
the classifier level, so its unreachability is a property of the
surrounding control flow, not of the classifier. -/
theorem c10_guarded_throws_unreachable :
    (∀ (opts : McpShimOptions) (parsed : Except String Json) (remote : RemoteResult),
      (handleLine opts parsed remote).guardedThrew = false) ∧
    classifyAxios false (some (Json.str "tools/list"))
        ⟨some ⟨401, Json.obj [("message", Json.str "token expired")]⟩,
          "Request failed with status code 401"⟩ =
      ClassifyOut.thrown (Exn.mcpError expiredErrorText ErrorType.AUTH_EXPIRED)
        [] true := by
  constructor
  · intro opts parsed remote
    rcases parsed with e | m
    · rfl
    · cases m with
      | null => rfl
      | bool b => exact dispatchMessage_not_guarded ..
      | num n => exact dispatchMessage_not_guarded ..
      | str s => exact dispatchMessage_not_guarded ..
      | arr a => exact dispatchMessage_not_guarded ..
      | obj fields => exact dispatchMessage_not_guarded ..
  · rfl

/-- C3 amended: a 401/403 failure whose extracted body message does not
mention expired but mentions limit or quota is classified with code
-32004 and the AuthLimits kind; an HTTP 429 failure is classified by
status alone, before the body is inspected, with code -32029. -/
theorem c3_amended_auth_limits_classification :
    (∀ (debug : Bool) (method : Option Json) (status : Nat) (data : Json)
        (am t : String),
      (status = 401 ∨ status = 403) →
      isToolsListMethod method = false →
      errMsgOf data = Json.str t →
      jsIncludes (lowerString t) "expired" = false →
      (jsIncludes (lowerString t) "limit" || jsIncludes (lowerString t) "quota") = true →
      classifyAxios debug method ⟨some ⟨status, data⟩, am⟩ =
        ClassifyOut.respond (-32004) limitsErrorText
          (dbgLogs debug
            ["⚠️ Usage limits exceeded: " ++ t,
             "   Please visit https://console.easymcp.net to upgrade your plan."])
          (some ErrorType.AUTH_LIMITS)) ∧
    (∀ (debug : Bool) (method : Option Json) (data : Json) (am : String),
      (classifyAxios debug method ⟨some ⟨429, data⟩, am⟩).codeOf = some (-32029)) := by
  constructor
  · intro debug method status data am t hst hm hmsg hexp hlim
    have h401 : (status == 401 || status == 403) = true := by
      rcases hst with h | h <;> simp [h]
    simp [classifyAxios, h401, hmsg, classifyAuthMsg, hexp, hlim, hm]
  · intro debug method data am
    simp [classifyAxios, ClassifyOut.codeOf]

/-- C3 amended, witness: a 401 with body message quota exceeded is
classified -32004 AuthLimits. -/
theorem c3_amended_witness :
    classifyAxios false (some (Json.str "tools/call"))
        ⟨some ⟨401, Json.obj [("message", Json.str "quota exceeded")]⟩, "m"⟩ =
      ClassifyOut.respond (-32004) limitsErrorText []
        (some ErrorType.AUTH_LIMITS) :=
  c3_amended_auth_limits_classification.1 false (some (Json.str "tools/call"))
    401 (Json.obj [("message", Json.str "quota exceeded")]) "m" "quota exceeded"
    (Or.inl rfl) rfl rfl (by decide) (by decide)

/-- C7: an HTTP 404 failure, and a failure whose payload carries
JSON-RPC code -32601 once the 401/403, 429 and 500-and-above branches
have not matched, are classified -32601 (method not found) with no
diagnostic log line even when debug is enabled; the third conjunct
shows first-match precedence: a 500 whose payload carries -32601 is
still classified as a server error, -32000. -/
theorem c7_method_not_found_silent :
    (∀ (debug : Bool) (method : Option Json) (data : Json) (am : String),
      classifyAxios debug method ⟨some ⟨404, data⟩, am⟩ =
        ClassifyOut.respond (-32601) ("Method not found: " ++ jsTemplateOpt method)
          [] none) ∧
    (∀ (debug : Bool) (method : Option Json) (status : Nat) (data : Json) (am : String),
      status ≠ 401 → status ≠ 403 → status ≠ 429 → status < 500 → status ≠ 404 →
      isNumEq (optChain (optChain (some data) "error") "code") (-32601) = true →
      classifyAxios debug method ⟨some ⟨status, data⟩, am⟩ =
        ClassifyOut.respond (-32601) ("Method not found: " ++ jsTemplateOpt method)
          [] none) ∧
    (∀ (debug : Bool) (method : Option Json) (am : String),
      (classifyAxios debug method
        ⟨some ⟨500, Json.obj [("error", Json.obj [("code", Json.num (-32601))])]⟩,
          am⟩).codeOf = some (-32000)) := by
  refine ⟨?_, ?_, ?_⟩
  · intro debug method data am
    rfl
  · intro debug method status data am h1 h2 h3 h4 h5 h6
    have b1 : (status == 401 || status == 403) = false := by simp [h1, h2]
    have b2 : (status == 429) = false := by simp [h3]
    have b3 : ¬(status ≥ 500) := by omega
    have b4 : (status == 404 ||
        isNumEq (optChain (optChain (some data) "error") "code") (-32601)) = true := by
      simp [h6]
    simp [classifyAxios, b1, b2, b3, b4]
  · intro debug method am
    rfl

/-- C7 witness: a 400 whose payload carries JSON-RPC code -32601 is
classified -32601 with no log lines. -/
theorem c7_witness :
    classifyAxios true (some (Json.str "prompts/get"))
        ⟨some ⟨400, Json.obj [("error", Json.obj [("code", Json.num (-32601))])]⟩,
          "m"⟩ =
      ClassifyOut.respond (-32601) "Method not found: prompts/get" [] none :=
  c7_method_not_found_silent.2.1 true (some (Json.str "prompts/get")) 400
    (Json.obj [("error", Json.obj [("code", Json.num (-32601))])]) "m"
    (by decide) (by decide) (by decide) (by decide) (by decide) (by decide)

/-- C4 amended: a parsed line whose method is a string starting with
notifications/ produces no output line and no network call; a parsed
line whose id is absent but whose method is not a notification string
is still processed and always produces at least one output line. -/
theorem c4_amended_notifications_silent :
    (∀ (opts : McpShimOptions) (m : Json) (s : String) (remote : RemoteResult),
      jsGet m "method" = some (Json.str s) →
      jsStartsWith s "notifications/" = true →
      (handleLine opts (Except.ok m) remote).outputs = [] ∧
        (handleLine opts (Except.ok m) remote).posts = 0) ∧
    (∀ (opts : McpShimOptions) (m : Json) (remote : RemoteResult),
      jsGet m "id" = none →
      (∀ s, jsGet m "method" = some (Json.str s) →
        jsStartsWith s "notifications/" = false) →
      (handleLine opts (Except.ok m) remote).outputs ≠ []) := by
  constructor
  · intro opts m s remote hmeth hpre
    obtain ⟨fields, rfl⟩ := jsGet_some_obj hmeth
    constructor <;> simp [handleLine, dispatchMessage, hmeth, hpre]
  · intro opts m remote _hid hns
    cases m with
    | null => simp [handleLine]
    | bool b => exact dispatchMessage_outputs_ne_nil _ _ _ hns
    | num n => exact dispatchMessage_outputs_ne_nil _ _ _ hns
    | str s => exact dispatchMessage_outputs_ne_nil _ _ _ hns
    | arr a => exact dispatchMessage_outputs_ne_nil _ _ _ hns
    | obj fields => exact dispatchMessage_outputs_ne_nil _ _ _ hns

/-- C4 amended, witness: a progress notification yields no output and no
post; a ping without id still yields an output line. -/
theorem c4_amended_witness :
    (handleLine ⟨"token", false, Env.prod⟩
      (Except.ok (Json.obj [("jsonrpc", Json.str "2.0"),
        ("method", Json.str "notifications/progress")]))
      (RemoteResult.ok Json.null)).outputs = [] ∧
    (handleLine ⟨"token", false, Env.prod⟩
      (Except.ok (Json.obj [("jsonrpc", Json.str "2.0"),
        ("method", Json.str "notifications/progress")]))
      (RemoteResult.ok Json.null)).posts = 0 ∧
    (handleLine ⟨"token", false, Env.prod⟩
      (Except.ok (Json.obj [("jsonrpc", Json.str "2.0"),
        ("method", Json.str "ping")]))
      (RemoteResult.axiosErr ⟨none, "Network Error"⟩)).outputs ≠ [] := by
  refine ⟨?_, ?_, ?_⟩
  · exact (c4_amended_notifications_silent.1 ⟨"token", false, Env.prod⟩
      (Json.obj [("jsonrpc", Json.str "2.0"),
        ("method", Json.str "notifications/progress")])
      "notifications/progress" (RemoteResult.ok Json.null) rfl (by decide)).1
  · exact (c4_amended_notifications_silent.1 ⟨"token", false, Env.prod⟩
      (Json.obj [("jsonrpc", Json.str "2.0"),
        ("method", Json.str "notifications/progress")])
      "notifications/progress" (RemoteResult.ok Json.null) rfl (by decide)).2
  · exact c4_amended_notifications_silent.2 ⟨"token", false, Env.prod⟩
      (Json.obj [("jsonrpc", Json.str "2.0"), ("method", Json.str "ping")])
      (RemoteResult.axiosErr ⟨none, "Network Error"⟩) rfl
      (by intro s hs; cases hs; decide)

/-- C8: every request whose method field is the string initialize is
answered locally with the fixed serverInfo, capabilities and protocol
version 2024-11-05 response, with the id of the request, performing no
network call, writing exactly that one line, for every remote
behaviour. -/
theorem c8_initialize_local (opts : McpShimOptions) (m : Json)
    (remote : RemoteResult)
    (hmeth : jsGet m "method" = some (Json.str "initialize")) :
    handleLine opts (Except.ok m) remote =
      ⟨[initializeResponse (jsGet m "id")],
        dbgLogs opts.debug ["Received: initialize"] ++
          dbgLogs opts.debug ["Initialization complete"],
        0, false⟩ := by
  obtain ⟨fields, rfl⟩ := jsGet_some_obj hmeth
  have hns : jsStartsWith "initialize" "notifications/" = false := by decide
  simp [handleLine, dispatchMessage, hmeth, hns, recvName, jsTruthy, jsToStr]

/-- C8 witness: the initialize line with id 1 yields the fixed local
response without touching the failing remote. -/
theorem c8_witness :
    handleLine ⟨"token", false, Env.prod⟩
      (Except.ok (Json.obj [("jsonrpc", Json.str "2.0"), ("id", Json.num 1),
        ("method", Json.str "initialize")]))
      (RemoteResult.axiosErr ⟨none, "Network Error"⟩) =
      ⟨[initializeResponse (some (Json.num 1))], [], 0, false⟩ :=
  c8_initialize_local ⟨"token", false, Env.prod⟩
    (Json.obj [("jsonrpc", Json.str "2.0"), ("id", Json.num 1),
      ("method", Json.str "initialize")])
    (RemoteResult.axiosErr ⟨none, "Network Error"⟩) rfl

/-- C5: a forwarded request (method a string that is not a notification,
not initialize and not tools/list) whose remote call fails with HTTP
401 or 403 and whose extracted body message contains expired after
lowering is answered with code -32003 and the expired-token message,
and the classifier branch taken is the one carrying the AuthExpired
kind. -/
theorem c5_expired_token_classified (opts : McpShimOptions) (m : Json)
    (s : String) (status : Nat) (data : Json) (am t : String)
    (hmeth : jsGet m "method" = some (Json.str s))
    (hnotif : jsStartsWith s "notifications/" = false)
    (hinit : (s == "initialize") = false)
    (htl : (s == "tools/list") = false)
    (hst : status = 401 ∨ status = 403)
    (hmsg : errMsgOf data = Json.str t)
    (hexp : jsIncludes (lowerString t) "expired" = true) :
    (handleLine opts (Except.ok m)
      (RemoteResult.axiosErr ⟨some ⟨status, data⟩, am⟩)).outputs =
      [errorResponse (jsGet m "id") (-32003) expiredErrorText] ∧
    classifyAxios opts.debug (some (Json.str s)) ⟨some ⟨status, data⟩, am⟩ =
      ClassifyOut.respond (-32003) expiredErrorText
        (dbgLogs opts.debug
          ["⚠️ Token expired: " ++ t,
           "   Please visit https://console.easymcp.net to renew your subscription."])
        (some ErrorType.AUTH_EXPIRED) := by
  have h401 : (status == 401 || status == 403) = true := by
    rcases hst with h | h <;> simp [h]
  have hm : isToolsListMethod (some (Json.str s)) = false := by
    simp [isToolsListMethod, htl]
  have hclass : classifyAxios opts.debug (some (Json.str s))
      ⟨some ⟨status, data⟩, am⟩ =
      ClassifyOut.respond (-32003) expiredErrorText
        (dbgLogs opts.debug
          ["⚠️ Token expired: " ++ t,
           "   Please visit https://console.easymcp.net to renew your subscription."])
        (some ErrorType.AUTH_EXPIRED) := by
    simp [classifyAxios, h401, hmsg, classifyAuthMsg, hexp, hm]
  refine ⟨?_, hclass⟩
  obtain ⟨fields, rfl⟩ := jsGet_some_obj hmeth
  simp [handleLine, dispatchMessage, hmeth, hnotif, hinit, htl, forwardRequest,
    applyCatch218, catch218, hclass]

/-- C5 witness: a resources/read with id 9 rejected 401 with body
message Token EXPIRED yields the -32003 expired response. -/
theorem c5_witness :
    (handleLine ⟨"token", false, Env.prod⟩
      (Except.ok (Json.obj [("jsonrpc", Json.str "2.0"), ("id", Json.num 9),
        ("method", Json.str "resources/read")]))
      (RemoteResult.axiosErr
        ⟨some ⟨401, Json.obj [("message", Json.str "Token EXPIRED")]⟩, "m"⟩)).outputs =
      [errorResponse (some (Json.num 9)) (-32003) expiredErrorText] :=
  (c5_expired_token_classified ⟨"token", false, Env.prod⟩
    (Json.obj [("jsonrpc", Json.str "2.0"), ("id", Json.num 9),
      ("method", Json.str "resources/read")])
    "resources/read" 401 (Json.obj [("message", Json.str "Token EXPIRED")])
    "m" "Token EXPIRED" rfl (by decide) (by decide) (by decide) (Or.inl rfl)
    rfl (by decide)).1

/-- C9: a tools/list request whose remote call fails with HTTP 401 or
403 and whose extracted body message is a string has its typed McpError
caught by the non-axios branch of the general catch, so the single
emitted error response carries code -32603 and the human-readable
McpError message selected by the auth cascade, not an auth-family code
such as -32003. -/
theorem c9_toolsList_auth_surfaces_32603 (opts : McpShimOptions) (m : Json)
    (status : Nat) (data : Json) (am t : String)
    (hmeth : jsGet m "method" = some (Json.str "tools/list"))
    (hst : status = 401 ∨ status = 403)
    (hmsg : errMsgOf data = Json.str t) :
    (handleLine opts (Except.ok m)
      (RemoteResult.axiosErr ⟨some ⟨status, data⟩, am⟩)).outputs =
      [errorResponse (jsGet m "id") (-32603) (authMcpText t)] := by
  obtain ⟨fields, rfl⟩ := jsGet_some_obj hmeth
  have h401 : (status == 401 || status == 403) = true := by
    rcases hst with h | h <;> simp [h]
  have hns : jsStartsWith "tools/list" "notifications/" = false := by decide
  have hni : ("tools/list" == "initialize") = false := by decide
  by_cases hexp : jsIncludes (lowerString t) "expired" = true
  · simp [handleLine, dispatchMessage, hmeth, hns, hni, toolsListRequest,
      toolsListCatch, h401, hmsg, classifyAuthMsg, hexp, applyCatch218,
      catch218, Exn.message, authMcpText]
  · by_cases hlim : (jsIncludes (lowerString t) "limit" ||
        jsIncludes (lowerString t) "quota") = true
    · simp [handleLine, dispatchMessage, hmeth, hns, hni, toolsListRequest,
        toolsListCatch, h401, hmsg, classifyAuthMsg, hexp, hlim,
        applyCatch218, catch218, Exn.message, authMcpText]
    · simp [handleLine, dispatchMessage, hmeth, hns, hni, toolsListRequest,
        toolsListCatch, h401, hmsg, classifyAuthMsg, hexp, hlim,
        applyCatch218, catch218, Exn.message, authMcpText]

/-- C9 witness: a tools/list with id 5 rejected 403 with body message
usage limit reached yields the single -32603 limits response. -/
theorem c9_witness :
    (handleLine ⟨"token", false, Env.prod⟩
      (Except.ok (Json.obj [("jsonrpc", Json.str "2.0"), ("id", Json.num 5),
        ("method", Json.str "tools/list")]))
      (RemoteResult.axiosErr
        ⟨some ⟨403, Json.obj [("message", Json.str "usage limit reached")]⟩,
          "m"⟩)).outputs =
      [errorResponse (some (Json.num 5)) (-32603) limitsErrorText] :=
  c9_toolsList_auth_surfaces_32603 ⟨"token", false, Env.prod⟩
    (Json.obj [("jsonrpc", Json.str "2.0"), ("id", Json.num 5),
      ("method", Json.str "tools/list")])
    403 (Json.obj [("message", Json.str "usage limit reached")]) "m"
    "usage limit reached" rfl (Or.inr rfl) rfl
